import Mathlib

/-!
Shallow embedding of the stock-resolution and signal-detection core of the
FinLLM-Server repository (routes/query.py, utils/helpers.py, models.py).

Modelling conventions:
* Database tables are lists of rows in database order; SQLAlchemy
  `query(...).filter(p).first()` is `List.find?`, `.all()` is `List.filter`.
* SQL `Float` columns are modelled as rationals (`Rat`); nullable columns the
  code tests for null (`isnot(None)`, Python truthiness) are `Option Rat`.
  `DailyPrice.volume` is dereferenced unconditionally by the code, so it is
  modelled as a plain `Rat`.
* `Date` values inside tables are proleptic-Gregorian day ordinals (`Int`),
  matching Python `date.toordinal`; `timedelta(days=k)` is subtraction of `k`.
* `list.sort` (a stable sort) and SQL `ORDER BY` are modelled by a stable
  insertion sort `sortBy`.
* Raising `HTTPException` is modelled by `Except.error` carrying the status
  code and detail; the blanket `except Exception: raise HTTPException(500,
  str(e))` wrappers around the route bodies are modelled by `wrapSignal` and
  `wrapSimple`, because FastAPI's `HTTPException` derives from `Exception`
  and is therefore caught by those handlers.
-/

unseal Rat.ofScientific Rat.mul Rat.inv Rat.add Rat.sub

/-- HTTP error carrying a status code and a detail string, as raised by
`fastapi.HTTPException(status_code=..., detail=...)`. -/
structure HTTPErr where
  status : Nat
  detail : String
deriving DecidableEq

/-- Decidable equality of results, for evaluating concrete examples. -/
instance {ε α : Type} [DecidableEq ε] [DecidableEq α] :
    DecidableEq (Except ε α) := fun
  | .error e, .error f =>
    if h : e = f then isTrue (by rw [h])
    else isFalse (by intro hh; cases hh; exact h rfl)
  | .error _, .ok _ => isFalse (by intro hh; cases hh)
  | .ok _, .error _ => isFalse (by intro hh; cases hh)
  | .ok a, .ok b =>
    if h : a = b then isTrue (by rw [h])
    else isFalse (by intro hh; cases hh; exact h rfl)

/-- Status code of an `Except HTTPErr` result, if it is an error. -/
def errStatus {α : Type} : Except HTTPErr α → Option Nat
  | .error e => some e.status
  | .ok _ => none

/-- Rendering of `str(e)` for a starlette `HTTPException`:
the format is status code, colon, detail. -/
def strOfErr (e : HTTPErr) : String :=
  toString e.status ++ ": " ++ e.detail

/-- An exception escaping a route body: either a deliberately raised
`HTTPException`, or any other runtime exception (modelled by its message
only). -/
inductive PyExc where
  | http (e : HTTPErr)
  | runtime (msg : String)
deriving DecidableEq

/-- Status code of a route-body result when it raised an `HTTPException`. -/
def excHTTPStatus {α : Type} : Except PyExc α → Option Nat
  | .error (.http e) => some e.status
  | .error (.runtime _) => none
  | .ok _ => none

/-- Rendering of Python `str(e)` for an exception escaping a route body. -/
def strOfExc : PyExc → String
  | .http e => strOfErr e
  | .runtime m => m

/-- The blanket handler closing `signal_query` (routes/query.py lines
654-655): `except Exception as e: raise HTTPException(status_code=500,
detail=str(e))`. Since `HTTPException` derives from `Exception`, every error
raised in the body — including deliberate 400s and 404s — is converted to a
status-500 error. -/
def wrapSignal {α : Type} : Except PyExc α → Except HTTPErr α
  | .error e => .error ⟨500, strOfExc e⟩
  | .ok a => .ok a

/-- The blanket handler closing `simple_query` (routes/query.py lines
278-282); like `wrapSignal` but the detail is prefixed and carries a
traceback, whose text is not modelled. -/
def wrapSimple {α : Type} : Except PyExc α → Except HTTPErr α
  | .error e => .error ⟨500, "Error: " ++ strOfExc e⟩
  | .ok a => .ok a

/-- Python truthiness of an optional string parameter (`if stock and date`):
present and non-empty. -/
def strTruthy : Option String → Bool
  | none => false
  | some s => s != ""

/-- Python `x or d` for an optional float parameter: `None` and `0.0` are
falsy and give the default (e.g. `threshold or 70`). -/
def pyOr (x : Option Rat) (d : Rat) : Rat :=
  match x with
  | none => d
  | some v => if v == 0 then d else v

/-- Python `x or d` for an optional int parameter (`ma_period or 20`). -/
def pyOrInt (x : Option Int) (d : Int) : Int :=
  match x with
  | none => d
  | some v => if v == 0 then d else v

/-- Python truthiness of an optional float (`if ma_value`): present and
non-zero. -/
def ratTruthy : Option Rat → Bool
  | none => false
  | some v => v != 0

/-- Whether the character list `needle` is an initial segment of `hay`. -/
def startsWithChars : List Char → List Char → Bool
  | [], _ => true
  | _ :: _, [] => false
  | a :: as, b :: bs => a == b && startsWithChars as bs

/-- Whether `needle` occurs contiguously inside `hay`. -/
def hasSubChars (needle : List Char) : List Char → Bool
  | [] => needle.isEmpty
  | c :: t => startsWithChars needle (c :: t) || hasSubChars needle t

/-- SQL `column.contains(q)` (LIKE with wildcards on both sides): substring
containment of `needle` in `hay`. -/
def strHas (hay needle : String) : Bool :=
  hasSubChars needle.data hay.data

/-- Python `s.startswith(p)`. -/
def strStarts (s p : String) : Bool :=
  startsWithChars p.data s.data

/-- Python `s.endswith(p)`. -/
def strEnds (s p : String) : Bool :=
  startsWithChars p.data.reverse s.data.reverse

/-- Split a character list on a separator character, keeping empty pieces,
as Python `s.split(sep)` and Lean `String.splitOn` do for a one-character
separator. -/
def splitChar (sep : Char) : List Char → List (List Char)
  | [] => [[]]
  | c :: t =>
    if c == sep then [] :: splitChar sep t
    else
      match splitChar sep t with
      | [] => [[c]]
      | p :: ps => (c :: p) :: ps

/-- Stable insertion of `a` into `l`, placing `a` before the first element
`b` with `le a b`. -/
def insertBy {α : Type} (le : α → α → Bool) (a : α) : List α → List α
  | [] => [a]
  | b :: bs => if le a b then a :: b :: bs else b :: insertBy le a bs

/-- Stable sort by the boolean relation `le`; for a total reflexive `le`
this coincides with Python's stable `list.sort`. -/
def sortBy {α : Type} (le : α → α → Bool) : List α → List α
  | [] => []
  | a :: as => insertBy le a (sortBy le as)

/-- A calendar date as parsed from a `YYYY-MM-DD` string. -/
structure Day where
  year : Nat
  month : Nat
  day : Nat
deriving DecidableEq

/-- Gregorian leap-year test, as in Python's `calendar.isleap`. -/
def isLeap (y : Nat) : Bool :=
  (y % 4 == 0 && y % 100 != 0) || (y % 400 == 0)

/-- Number of days in a month, as validated by `datetime.date`. -/
def daysInMonth (y m : Nat) : Nat :=
  if m == 2 then (if isLeap y then 29 else 28)
  else if m == 4 || m == 6 || m == 9 || m == 11 then 30
  else 31

/-- Days in all years strictly before year `y` (proleptic Gregorian),
as in CPython's `_days_before_year`. -/
def daysBeforeYear (y : Nat) : Nat :=
  365 * (y - 1) + (y - 1) / 4 - (y - 1) / 100 + (y - 1) / 400

/-- Days in the months of year `y` strictly before month `m`,
as in CPython's `_days_before_month`. -/
def daysBeforeMonth (y m : Nat) : Nat :=
  (List.range (m - 1)).foldl (fun acc i => acc + daysInMonth y (i + 1)) 0

/-- Python `date.toordinal`: day number with `0001-01-01` as day 1. -/
def toOrdinal (d : Day) : Int :=
  Int.ofNat (daysBeforeYear d.year + daysBeforeMonth d.year d.month + d.day)

/-- Whether the character list is non-empty and all decimal digits. -/
def allDigits (cs : List Char) : Bool :=
  !cs.isEmpty && cs.all Char.isDigit

/-- Numeric value of a decimal digit sequence. -/
def digitsToNat (cs : List Char) : Nat :=
  cs.foldl (fun n c => n * 10 + (c.toNat - 48)) 0

/-- The 400 error raised by `utils.helpers.parse_date` on a malformed date. -/
def badDateErr (s : String) : HTTPErr :=
  ⟨400, "Invalid date format: " ++ s ++ ". Expected YYYY-MM-DD."⟩

/-- utils/helpers.py `parse_date`: `datetime.strptime(date_str, "%Y-%m-%d")`,
re-raising `ValueError` as a 400 `HTTPException`. The year must be exactly
four digits and at least 1, month and day at most two digits, month in 1..12
and day in 1..days-in-month, with nothing left over. -/
def parse_date (s : String) : Except HTTPErr Day :=
  match splitChar '-' s.data with
  | [ys, ms, ds] =>
    if allDigits ys && ys.length == 4 && allDigits ms && ms.length ≤ 2
        && allDigits ds && ds.length ≤ 2 then
      let y := digitsToNat ys
      let m := digitsToNat ms
      let d := digitsToNat ds
      if 1 ≤ y && 1 ≤ m && m ≤ 12 && 1 ≤ d && d ≤ daysInMonth y m then
        .ok ⟨y, m, d⟩
      else
        .error (badDateErr s)
    else
      .error (badDateErr s)
  | _ => .error (badDateErr s)

/-- models.py `Stock`: the reference entity for one listed issue. Only the
columns read by routes/query.py are modelled. -/
structure Stock where
  stock_id : Nat
  symbol : String
  krx_code : String
  name : String
  market : String
  is_active : Bool
deriving DecidableEq

/-- models.py `DailyPrice`: one OHLCV row per (stock, trading date). -/
structure DailyPrice where
  stock_id : Nat
  date : Int
  open_price : Option Rat
  high_price : Option Rat
  low_price : Option Rat
  close_price : Option Rat
  volume : Rat
  change_rate : Option Rat
deriving DecidableEq

/-- models.py `TechnicalIndicator`: one precomputed-indicator row per
(stock, trading date). Only the columns read by routes/query.py are
modelled. -/
structure TechnicalIndicator where
  stock_id : Nat
  date : Int
  ma5 : Option Rat
  ma20 : Option Rat
  ma60 : Option Rat
  rsi : Option Rat
  bb_upper_touch : Option Bool
  bb_lower_touch : Option Bool
deriving DecidableEq

/-- The base query of routes/query.py `find_stock_by_name` (lines 17-20):
active stocks, optionally restricted to one market. -/
def resolverBase (db : List Stock) (market : String) : List Stock :=
  db.filter (fun s =>
    s.is_active && (market == "ALL" || s.market == market))

/-- routes/query.py `find_stock_by_name`: resolve a free-form identifier to
the first active stock matching, in order, exact display name, exact trading
symbol, exact KRX (exchange) code, then substring containment across the
three columns. Returns `none` when no stage matches. -/
def find_stock_by_name (db : List Stock) (stock_name : String)
    (market : String) : Option Stock :=
  match (resolverBase db market).find? (fun s => s.name == stock_name) with
  | some s => some s
  | none =>
    match (resolverBase db market).find?
        (fun s => s.symbol == stock_name) with
    | some s => some s
    | none =>
      match (resolverBase db market).find?
          (fun s => s.krx_code == stock_name) with
      | some s => some s
      | none =>
        (resolverBase db market).find? (fun s =>
          strHas s.name stock_name || strHas s.symbol stock_name
            || strHas s.krx_code stock_name)

/-- Golden-cross condition on two consecutive qualifying indicator rows:
previously MA5 ≤ MA20, currently MA5 > MA20 (routes/query.py line 465).
Null moving averages were already excluded by the query filter, so the
values are read with a default that is never used. -/
def goldenCond (prev curr : TechnicalIndicator) : Bool :=
  decide (prev.ma5.getD 0 ≤ prev.ma20.getD 0)
    && decide (curr.ma5.getD 0 > curr.ma20.getD 0)

/-- Dead-cross condition on two consecutive qualifying indicator rows:
previously MA5 ≥ MA20, currently MA5 < MA20 (routes/query.py line 468). -/
def deadCond (prev curr : TechnicalIndicator) : Bool :=
  decide (prev.ma5.getD 0 ≥ prev.ma20.getD 0)
    && decide (curr.ma5.getD 0 < curr.ma20.getD 0)

/-- The loop of routes/query.py lines 460-469: walk consecutive pairs,
counting golden crosses, and dead crosses on the `elif` branch. -/
def crossLoop : TechnicalIndicator → List TechnicalIndicator → Nat × Nat
  | _, [] => (0, 0)
  | prev, curr :: rest =>
    let r := crossLoop curr rest
    if goldenCond prev curr then (r.1 + 1, r.2)
    else if deadCond prev curr then (r.1, r.2 + 1)
    else r

/-- Cross counting over the fetched indicator rows: fewer than 2 rows
reports zero counts (routes/query.py lines 446-455), otherwise the pairwise
loop runs. -/
def crossCounts (tech_data : List TechnicalIndicator) : Nat × Nat :=
  if tech_data.length < 2 then (0, 0)
  else
    match tech_data with
    | [] => (0, 0)
    | first :: rest => crossLoop first rest

/-- The indicator-row query of routes/query.py lines 439-444: rows of the
resolved stock within `[start_dt, end_dt]` whose `ma5` and `ma20` are both
non-null, in ascending date order. -/
def crossTechData (tis : List TechnicalIndicator) (sid : Nat)
    (start_dt end_dt : Int) : List TechnicalIndicator :=
  sortBy (fun a b => decide (a.date ≤ b.date))
    (tis.filter (fun t =>
      t.stock_id == sid && decide (start_dt ≤ t.date)
        && decide (t.date ≤ end_dt) && t.ma5.isSome && t.ma20.isSome))

/-- The cross-count evaluator for a resolved stock and date range:
fetch qualifying rows, then count golden and dead crosses. -/
def crossCountQuery (tis : List TechnicalIndicator) (sid : Nat)
    (start_dt end_dt : Int) : Nat × Nat :=
  crossCounts (crossTechData tis sid start_dt end_dt)

/-- One entry of a snapshot-signal result list. The branch-specific numeric
key (`rsi`, `surge_ratio`, `deviation`) is stored in `metric`; the Bollinger
branch has no numeric key and stores `none`. -/
structure SigRow where
  name : String
  symbol : String
  metric : Option Rat
deriving DecidableEq

/-- Join of `DailyPrice` with `Stock` on `stock_id`, in database order. -/
def joinPriceStock (dps : List DailyPrice) (stocks : List Stock) :
    List (DailyPrice × Stock) :=
  dps.flatMap (fun p =>
    (stocks.filter (fun s => s.stock_id == p.stock_id)).map (fun s => (p, s)))

/-- Join of `TechnicalIndicator` with `Stock` on `stock_id`. -/
def joinTIStock (tis : List TechnicalIndicator) (stocks : List Stock) :
    List (TechnicalIndicator × Stock) :=
  tis.flatMap (fun t =>
    (stocks.filter (fun s => s.stock_id == t.stock_id)).map (fun s => (t, s)))

/-- Join of `TechnicalIndicator` with `DailyPrice` on (stock, date) and with
`Stock` on `stock_id`, for the MA-breakout branch. -/
def joinTIPriceStock (tis : List TechnicalIndicator) (dps : List DailyPrice)
    (stocks : List Stock) :
    List (TechnicalIndicator × DailyPrice × Stock) :=
  tis.flatMap (fun t =>
    (dps.filter (fun p => p.stock_id == t.stock_id && p.date == t.date)).flatMap
      (fun p =>
        (stocks.filter (fun s => s.stock_id == t.stock_id)).map
          (fun s => (t, p, s))))

/-- RSI base query (routes/query.py lines 497-503): indicator rows of the
snapshot date joined with active stocks, RSI non-null. -/
def rsiBase (tis : List TechnicalIndicator) (stocks : List Stock)
    (query_date : Int) : List (TechnicalIndicator × Stock) :=
  (joinTIStock tis stocks).filter (fun ts =>
    ts.1.date == query_date && ts.2.is_active && ts.1.rsi.isSome)

/-- RSI-overbought rows (routes/query.py lines 505-523): keep RSI at or
above the threshold, order by RSI descending, truncate to `limit`, and shape
each row. -/
def rsiOverboughtRows (tis : List TechnicalIndicator) (stocks : List Stock)
    (query_date : Int) (thr : Rat) (limit : Nat) : List SigRow :=
  ((sortBy (fun a b => decide (b.1.rsi.getD 0 ≤ a.1.rsi.getD 0))
      ((rsiBase tis stocks query_date).filter (fun ts =>
        decide (thr ≤ ts.1.rsi.getD 0)))).take limit).map
    (fun ts => ⟨ts.2.name, ts.2.symbol, some (ts.1.rsi.getD 0)⟩)

/-- RSI-oversold rows (routes/query.py lines 509-523): keep RSI at or below
the threshold, order by RSI ascending. -/
def rsiOversoldRows (tis : List TechnicalIndicator) (stocks : List Stock)
    (query_date : Int) (thr : Rat) (limit : Nat) : List SigRow :=
  ((sortBy (fun a b => decide (a.1.rsi.getD 0 ≤ b.1.rsi.getD 0))
      ((rsiBase tis stocks query_date).filter (fun ts =>
        decide (ts.1.rsi.getD 0 ≤ thr)))).take limit).map
    (fun ts => ⟨ts.2.name, ts.2.symbol, some (ts.1.rsi.getD 0)⟩)

/-- The 20-calendar-day volume window of routes/query.py lines 542-546:
price rows of the stock dated between `query_date - period` and
`query_date - 1`, both inclusive. -/
def surgeWindow (dps : List DailyPrice) (sid : Nat) (query_date : Int)
    (period : Int) : List DailyPrice :=
  dps.filter (fun p =>
    p.stock_id == sid && decide (p.date ≤ query_date - 1)
      && decide (query_date - period ≤ p.date))

/-- Mean volume over a window of price rows. -/
def avgVolume (win : List DailyPrice) : Rat :=
  (win.map (fun p => p.volume)).sum / (win.length : Rat)

/-- The per-stock body of the volume-surge loop (routes/query.py lines
540-558): require at least 10 window observations and a positive mean
volume, and keep the stock when volume / mean × 100 is at least
multiplier × 100. -/
def surgeRowFor (dps : List DailyPrice) (query_date : Int)
    (multiplier : Rat) (period : Int) (ps : DailyPrice × Stock) :
    Option SigRow :=
  let win := surgeWindow dps ps.2.stock_id query_date period
  if 10 ≤ win.length then
    let avg := avgVolume win
    if 0 < avg then
      let sr := ps.1.volume / avg * 100
      if multiplier * 100 ≤ sr then
        some (⟨ps.2.name, ps.2.symbol, some sr⟩ : SigRow)
      else none
    else none
  else none

/-- The active stocks holding a price row on the snapshot date
(routes/query.py lines 532-537). -/
def surgeCurrent (dps : List DailyPrice) (stocks : List Stock)
    (query_date : Int) : List (DailyPrice × Stock) :=
  (joinPriceStock dps stocks).filter (fun ps =>
    ps.1.date == query_date && ps.2.is_active)

/-- The volume-surge result list before sorting and truncation
(routes/query.py lines 539-558). -/
def volumeSurgeRaw (dps : List DailyPrice) (stocks : List Stock)
    (query_date : Int) (multiplier : Rat) (period : Int) : List SigRow :=
  (surgeCurrent dps stocks query_date).filterMap
    (surgeRowFor dps query_date multiplier period)

/-- Volume-surge rows (routes/query.py lines 527-565): the raw results
sorted descending by surge ratio and truncated to `limit`. -/
def volumeSurgeRows (dps : List DailyPrice) (stocks : List Stock)
    (query_date : Int) (multiplier : Rat) (period : Int) (limit : Nat) :
    List SigRow :=
  (sortBy (fun a b => decide (b.metric.getD 0 ≤ a.metric.getD 0))
    (volumeSurgeRaw dps stocks query_date multiplier period)).take limit

/-- Bollinger-touch rows (routes/query.py lines 567-592): indicator rows of
the snapshot date joined with active stocks, `bb_upper_touch` non-null, and
the requested touch flag true; truncated to `limit` without sorting. -/
def bollingerRows (tis : List TechnicalIndicator) (stocks : List Stock)
    (query_date : Int) (upper : Bool) (limit : Nat) : List SigRow :=
  (((joinTIStock tis stocks).filter (fun ts =>
      ts.1.date == query_date && ts.2.is_active
        && ts.1.bb_upper_touch.isSome
        && (if upper then ts.1.bb_upper_touch == some true
            else ts.1.bb_lower_touch == some true))).take limit).map
    (fun ts => ⟨ts.2.name, ts.2.symbol, none⟩)

/-- Moving average selected by the breakout branch (routes/query.py lines
614-620): `ma5`, `ma20` or `ma60` for periods 5, 20, 60, otherwise none. -/
def selectMA (t : TechnicalIndicator) (ma_period_val : Int) : Option Rat :=
  if ma_period_val == 5 then t.ma5
  else if ma_period_val == 20 then t.ma20
  else if ma_period_val == 60 then t.ma60
  else none

/-- The per-stock body of the breakout loop (routes/query.py lines 613-630):
where the selected MA and the close are both present and non-zero (Python
truthiness), keep the stock when deviation = (close − MA) / MA × 100 is at
least the breakout threshold. -/
def breakoutRowFor (ma_period_val : Int) (breakout_percent_val : Rat)
    (tps : TechnicalIndicator × DailyPrice × Stock) : Option SigRow :=
  let ma_value := selectMA tps.1 ma_period_val
  if ratTruthy ma_value && ratTruthy tps.2.1.close_price then
    let dev := (tps.2.1.close_price.getD 0 - ma_value.getD 0)
      / ma_value.getD 0 * 100
    if breakout_percent_val ≤ dev then
      some (⟨tps.2.2.name, tps.2.2.symbol, some dev⟩ : SigRow)
    else none
  else none

/-- The MA-breakout result list before sorting and truncation
(routes/query.py lines 612-630). -/
def maBreakoutRaw (tis : List TechnicalIndicator) (dps : List DailyPrice)
    (stocks : List Stock) (query_date : Int) (ma_period_val : Int)
    (breakout_percent_val : Rat) : List SigRow :=
  ((joinTIPriceStock tis dps stocks).filter (fun tps =>
    tps.1.date == query_date && tps.2.2.is_active)).filterMap
    (breakoutRowFor ma_period_val breakout_percent_val)

/-- MA-breakout rows (routes/query.py lines 594-637): the raw results
sorted descending by deviation and truncated to `limit`. -/
def maBreakoutRows (tis : List TechnicalIndicator) (dps : List DailyPrice)
    (stocks : List Stock) (query_date : Int) (ma_period_val : Int)
    (breakout_percent_val : Rat) (limit : Nat) : List SigRow :=
  (sortBy (fun a b => decide (b.metric.getD 0 ≤ a.metric.getD 0))
    (maBreakoutRaw tis dps stocks query_date ma_period_val
      breakout_percent_val)).take limit

/-- Response of the `signal_query` route: either the cross-count shape
(routes/query.py lines 478-487) or the snapshot shape (lines 642-652).
Presentation-only fields (`formatted_answer`, echoed parameters) are not
modelled. -/
inductive SignalResp where
  | cross (stock start_d end_d signal_type : String) (golden dead : Nat)
  | snapshot (date signal_type : String) (results : List SigRow)
deriving DecidableEq

/-- Body of routes/query.py `signal_query` (lines 424-652), before the
blanket exception handler. Parameter defaults mirror the FastAPI `Query`
defaults (`period=20`, `limit=15`). -/
def signal_query_body (stocks : List Stock) (dps : List DailyPrice)
    (tis : List TechnicalIndicator) (date : Option String)
    (signal_type : String) (threshold : Option Rat)
    (volume_multiplier : Option Rat) (ma_period : Option Int)
    (breakout_percent : Option Rat) (stock : Option String)
    (start_date : Option String) (end_date : Option String)
    (period : Int := 20) (limit : Nat := 15) : Except PyExc SignalResp :=
  if strEnds signal_type "_count"
      || (strTruthy stock && strTruthy start_date && strTruthy end_date) then
    if !(strTruthy stock && strTruthy start_date && strTruthy end_date) then
      .error (.http ⟨400,
        "크로스 횟수 조회에는 stock, start_date, end_date가 모두 필요합니다"⟩)
    else
      match find_stock_by_name stocks (stock.getD "") "ALL" with
      | none =>
        .error (.http ⟨404, "종목을 찾을 수 없습니다: " ++ stock.getD ""⟩)
      | some stock_obj =>
        match parse_date (start_date.getD "") with
        | .error e => .error (.http e)
        | .ok sd =>
          match parse_date (end_date.getD "") with
          | .error e => .error (.http e)
          | .ok ed =>
            let counts := crossCountQuery tis stock_obj.stock_id
              (toOrdinal sd) (toOrdinal ed)
            .ok (.cross (stock.getD "") (start_date.getD "")
              (end_date.getD "") signal_type counts.1 counts.2)
  else if !(strTruthy date) then
    .error (.http ⟨400, "일반 신호 조회에는 date 파라미터가 필요합니다"⟩)
  else
    match parse_date (date.getD "") with
    | .error e => .error (.http e)
    | .ok day =>
      let query_date := toOrdinal day
      if strStarts signal_type "rsi_" then
        if signal_type == "rsi_overbought" then
          .ok (.snapshot (date.getD "") signal_type
            (rsiOverboughtRows tis stocks query_date (pyOr threshold 70)
              limit))
        else if signal_type == "rsi_oversold" then
          .ok (.snapshot (date.getD "") signal_type
            (rsiOversoldRows tis stocks query_date (pyOr threshold 30) limit))
        else
          .error (.runtime
            "cannot access local variable referenced before assignment")
      else if signal_type == "volume_surge" then
        .ok (.snapshot (date.getD "") signal_type
          (volumeSurgeRows dps stocks query_date (pyOr volume_multiplier 1)
            period limit))
      else if strStarts signal_type "bollinger_" then
        if signal_type == "bollinger_upper" then
          .ok (.snapshot (date.getD "") signal_type
            (bollingerRows tis stocks query_date true limit))
        else if signal_type == "bollinger_lower" then
          .ok (.snapshot (date.getD "") signal_type
            (bollingerRows tis stocks query_date false limit))
        else
          .error (.runtime
            "cannot access local variable referenced before assignment")
      else if signal_type == "ma_breakout" then
        .ok (.snapshot (date.getD "") signal_type
          (maBreakoutRows tis dps stocks query_date (pyOrInt ma_period 20)
            (pyOr breakout_percent 3) limit))
      else
        .error (.http ⟨400, "지원하지 않는 신호 유형: " ++ signal_type⟩)

/-- The `signal_query` route as observed over HTTP: its body inside the
blanket 500 handler. -/
def signal_query (stocks : List Stock) (dps : List DailyPrice)
    (tis : List TechnicalIndicator) (date : Option String)
    (signal_type : String) (threshold : Option Rat)
    (volume_multiplier : Option Rat) (ma_period : Option Int)
    (breakout_percent : Option Rat) (stock : Option String)
    (start_date : Option String) (end_date : Option String)
    (period : Int := 20) (limit : Nat := 15) : Except HTTPErr SignalResp :=
  wrapSignal (signal_query_body stocks dps tis date signal_type threshold
    volume_multiplier ma_period breakout_percent stock start_date end_date
    period limit)

/-- Response of the individual-price branch of `simple_query`
(routes/query.py lines 141-148); presentation-only fields are not
modelled. -/
structure PriceResp where
  stock : String
  date : String
  price_type : String
  value : Option Rat
deriving DecidableEq

/-- The inline stock resolution of `simple_query` (routes/query.py lines
90-111): exact name, then exact symbol, then exact KRX code, then substring
containment, each restricted to active stocks. -/
def simpleResolve (stocks : List Stock) (stockQ : String) : Option Stock :=
  (stocks.find? (fun s => s.name == stockQ && s.is_active)) <|>
  (stocks.find? (fun s => s.symbol == stockQ && s.is_active)) <|>
  (stocks.find? (fun s => s.krx_code == stockQ && s.is_active)) <|>
  (stocks.find? (fun s =>
    (strHas s.name stockQ || strHas s.symbol stockQ
      || strHas s.krx_code stockQ) && s.is_active))

/-- Body of the individual stock-price branch of routes/query.py
`simple_query` (lines 87-148), the branch taken when `stock` and `date` are
both supplied: parse the date, resolve the stock by exact name, exact
symbol, exact KRX code, then substring containment (404 when none matches),
fetch the price row of that date (404 when absent), and read the price field
named by `price_type`, falling back to the close price for any unknown
token (`price_map.get(price_type, price_data.close_price)`). -/
def simple_query_price_body (stocks : List Stock) (dps : List DailyPrice)
    (stockQ dateQ price_type : String) : Except PyExc PriceResp :=
  match parse_date dateQ with
  | .error e => .error (.http e)
  | .ok day =>
    let query_date := toOrdinal day
    match simpleResolve stocks stockQ with
    | none => .error (.http ⟨404, "종목을 찾을 수 없습니다: " ++ stockQ⟩)
    | some st =>
      match dps.find? (fun p =>
          p.stock_id == st.stock_id && p.date == query_date) with
      | none =>
        .error (.http ⟨404,
          "가격 데이터 없음: " ++ stockQ ++ " (" ++ dateQ ++ ")"⟩)
      | some price_data =>
        let value :=
          if price_type == "open" then price_data.open_price
          else if price_type == "high" then price_data.high_price
          else if price_type == "low" then price_data.low_price
          else if price_type == "close" then price_data.close_price
          else if price_type == "change_rate" then price_data.change_rate
          else price_data.close_price
        .ok ⟨stockQ, dateQ, price_type, value⟩

/-- The individual stock-price branch as observed over HTTP: its body inside
the blanket 500 handler of `simple_query`. -/
def simple_query_price (stocks : List Stock) (dps : List DailyPrice)
    (stockQ dateQ price_type : String) : Except HTTPErr PriceResp :=
  wrapSimple (simple_query_price_body stocks dps stockQ dateQ price_type)

/-- Fixture: an active KOSPI stock. -/
def exStock (sid : Nat) (sym krx nm : String) : Stock :=
  ⟨sid, sym, krx, nm, "KOSPI", true⟩

/-- Fixture: a small stock table. -/
def exStocks : List Stock :=
  [exStock 1 "A.KS" "1111" "AA", exStock 2 "B.KS" "2222" "BB",
   exStock 3 "C.KS" "3333" "CC"]

/-- Fixture: an indicator row carrying only moving averages. -/
def exTi (sid : Nat) (d : Int) (m5 m20 : Option Rat) : TechnicalIndicator :=
  ⟨sid, d, m5, m20, none, none, none, none⟩

/-- Fixture: an indicator row carrying only an RSI value. -/
def exRsiTi (sid : Nat) (d : Int) (r : Rat) : TechnicalIndicator :=
  ⟨sid, d, none, none, none, some r, none, none⟩

/-- Fixture: a price row carrying only a close price and a volume. -/
def exDp (sid : Nat) (d : Int) (close : Option Rat) (vol : Rat) :
    DailyPrice :=
  ⟨sid, d, none, none, none, close, vol, none⟩

/-- Fixture for the cross-count example: stock 1 crosses MA5 above MA20 on
days 2 and 6 and below on day 5; the day-3 row has a null MA5, the day-100
row is outside the range, and the stock-2 row belongs to another stock. The
rows are listed out of date order to exercise the ordering. -/
def exCrossTis : List TechnicalIndicator :=
  [exTi 1 6 (some 3) (some 2), exTi 1 1 (some 1) (some 2),
   exTi 1 2 (some 3) (some 2), exTi 1 3 none (some 2),
   exTi 1 4 (some 3) (some 2), exTi 1 5 (some 1) (some 2),
   exTi 2 2 (some 9) (some 1), exTi 1 100 (some 1) (some 9)]

/-- Fixture: an indicator series with a single qualifying row. -/
def exFewTis : List TechnicalIndicator :=
  [exTi 1 1 (some 1) (some 2), exTi 1 2 none (some 2)]

/-- Fixture for the RSI example: three stocks with RSI 72.5, 85.0 and 69.9
on day 10. -/
def exRsiTis : List TechnicalIndicator :=
  [exRsiTi 1 10 72.5, exRsiTi 2 10 85.0, exRsiTi 3 10 69.9]

/-- Fixture for the breakout example: both stocks have MA20 = 100 on
day 10. -/
def exMaTis : List TechnicalIndicator :=
  [exTi 1 10 none (some 100), exTi 2 10 none (some 100)]

/-- Fixture for the breakout example: stock 1 closes at 121 (21 percent
above MA20), stock 2 at 105 (5 percent above). -/
def exMaDps : List DailyPrice :=
  [exDp 1 10 (some 121) 0, exDp 2 10 (some 105) 0]

/-- Fixture for the volume-surge example: stock 1 has ten prior days of
volume 100 and volume 500 on day 20 (surge ratio 500 percent); stock 2 has
only five prior observations. -/
def exSurgeDps : List DailyPrice :=
  (List.range 10).map (fun i => exDp 1 (20 - (i : Int) - 1) none 100) ++
  [exDp 1 20 none 500, exDp 2 20 none 500] ++
  (List.range 5).map (fun i => exDp 2 (20 - (i : Int) - 1) none 100)

theorem mem_insertBy {α : Type} {le : α → α → Bool} {a x : α} {l : List α} :
    x ∈ insertBy le a l ↔ x = a ∨ x ∈ l := by
  induction l with
  | nil => simp [insertBy]
  | cons b bs ih =>
    simp only [insertBy]
    by_cases h : le a b = true
    · rw [if_pos h]
      simp [List.mem_cons]
    · rw [if_neg h]
      simp only [List.mem_cons, ih]
      tauto

theorem mem_sortBy {α : Type} {le : α → α → Bool} {x : α} {l : List α} :
    x ∈ sortBy le l ↔ x ∈ l := by
  induction l with
  | nil => simp [sortBy]
  | cons a as ih => simp [sortBy, mem_insertBy, ih]

theorem pairwise_insertBy {α : Type} {le : α → α → Bool}
    (htot : ∀ a b, le a b = true ∨ le b a = true)
    (htrans : ∀ a b c, le a b = true → le b c = true → le a c = true)
    {a : α} {l : List α} (h : l.Pairwise (fun x y => le x y = true)) :
    (insertBy le a l).Pairwise (fun x y => le x y = true) := by
  induction l with
  | nil => exact List.pairwise_singleton _ _
  | cons b bs ih =>
    rw [List.pairwise_cons] at h
    obtain ⟨hb, hbs⟩ := h
    simp only [insertBy]
    by_cases hab : le a b = true
    · rw [if_pos hab, List.pairwise_cons]
      refine ⟨?_, List.pairwise_cons.mpr ⟨hb, hbs⟩⟩
      intro x hx
      rcases List.mem_cons.mp hx with rfl | hx
      · exact hab
      · exact htrans a b x hab (hb x hx)
    · rw [if_neg hab, List.pairwise_cons]
      refine ⟨?_, ih hbs⟩
      intro x hx
      rcases mem_insertBy.mp hx with heq | hx
      · rcases htot a b with h1 | h1
        · exact absurd h1 hab
        · rw [heq]
          exact h1
      · exact hb x hx

theorem pairwise_sortBy {α : Type} {le : α → α → Bool}
    (htot : ∀ a b, le a b = true ∨ le b a = true)
    (htrans : ∀ a b c, le a b = true → le b c = true → le a c = true)
    (l : List α) :
    (sortBy le l).Pairwise (fun x y => le x y = true) := by
  induction l with
  | nil => exact List.Pairwise.nil
  | cons a as ih => exact pairwise_insertBy htot htrans ih

/-- A stable sort descending by a rational key is pairwise descending. -/
theorem pairwise_sortBy_desc {α : Type} (keyf : α → Rat) (l : List α) :
    (sortBy (fun a b => decide (keyf b ≤ keyf a)) l).Pairwise
      (fun x y => keyf y ≤ keyf x) := by
  have h := @pairwise_sortBy _ (fun a b => decide (keyf b ≤ keyf a))
    (fun a b => by
      rcases le_total (keyf b) (keyf a) with h | h
      · exact Or.inl (by simpa using h)
      · exact Or.inr (by simpa using h))
    (fun a b c h1 h2 => by
      simp only [decide_eq_true_eq] at h1 h2 ⊢
      exact le_trans h2 h1) l
  exact h.imp (by intro a b hab; simpa using hab)

/-- A stable sort ascending by a rational key is pairwise ascending. -/
theorem pairwise_sortBy_asc {α : Type} (keyf : α → Rat) (l : List α) :
    (sortBy (fun a b => decide (keyf a ≤ keyf b)) l).Pairwise
      (fun x y => keyf x ≤ keyf y) := by
  have h := @pairwise_sortBy _ (fun a b => decide (keyf a ≤ keyf b))
    (fun a b => by
      rcases le_total (keyf a) (keyf b) with h | h
      · exact Or.inl (by simpa using h)
      · exact Or.inr (by simpa using h))
    (fun a b c h1 h2 => by
      simp only [decide_eq_true_eq] at h1 h2 ⊢
      exact le_trans h1 h2) l
  exact h.imp (by intro a b hab; simpa using hab)

/-- A stable sort ascending by an integer key is pairwise ascending. -/
theorem pairwise_sortBy_asc_int {α : Type} (keyf : α → Int) (l : List α) :
    (sortBy (fun a b => decide (keyf a ≤ keyf b)) l).Pairwise
      (fun x y => keyf x ≤ keyf y) := by
  have h := @pairwise_sortBy _ (fun a b => decide (keyf a ≤ keyf b))
    (fun a b => by
      rcases le_total (keyf a) (keyf b) with h | h
      · exact Or.inl (by simpa using h)
      · exact Or.inr (by simpa using h))
    (fun a b c h1 h2 => by
      simp only [decide_eq_true_eq] at h1 h2 ⊢
      exact le_trans h1 h2) l
  exact h.imp (by intro a b hab; simpa using hab)

/-- A golden cross and a dead cross cannot be detected on the same pair of
consecutive rows: they require MA5 above and below MA20 on the same later
row. -/
theorem golden_dead_exclusive (p c : TechnicalIndicator) :
    ¬(goldenCond p c = true ∧ deadCond p c = true) := by
  rintro ⟨hg, hd⟩
  simp only [goldenCond, deadCond, Bool.and_eq_true, decide_eq_true_eq]
    at hg hd
  exact absurd (lt_trans hd.2 hg.2) (lt_irrefl _)

/-- The pairwise loop counts exactly the pairs satisfying the golden and
dead conditions. -/
theorem crossLoop_eq_countP (prev : TechnicalIndicator)
    (rest : List TechnicalIndicator) :
    crossLoop prev rest =
      (((prev :: rest).zip rest).countP (fun pc => goldenCond pc.1 pc.2),
       ((prev :: rest).zip rest).countP (fun pc => deadCond pc.1 pc.2)) := by
  induction rest generalizing prev with
  | nil => simp [crossLoop]
  | cons curr rest ih =>
    simp only [crossLoop, ih curr, List.zip_cons_cons, List.countP_cons]
    by_cases hg : goldenCond prev curr = true
    · have hd : deadCond prev curr = false := by
        by_contra hcon
        rw [Bool.not_eq_false] at hcon
        exact golden_dead_exclusive prev curr ⟨hg, hcon⟩
      simp [hg, hd]
    · by_cases hd : deadCond prev curr = true
      · simp [hg, hd]
      · simp [hg, hd]

/-- With at least two fetched rows, cross counting is the pairwise loop. -/
theorem crossCounts_cons_cons (a b : TechnicalIndicator)
    (rest : List TechnicalIndicator) :
    crossCounts (a :: b :: rest) = crossLoop a (b :: rest) := by
  unfold crossCounts
  rw [if_neg]
  simp only [List.length_cons]
  omega

/-- Cross counting equals counting the qualifying consecutive pairs. -/
theorem crossCounts_eq_countP (td : List TechnicalIndicator) :
    crossCounts td =
      ((td.zip td.tail).countP (fun pc => goldenCond pc.1 pc.2),
       (td.zip td.tail).countP (fun pc => deadCond pc.1 pc.2)) := by
  match td with
  | [] => rfl
  | [x] => rfl
  | a :: b :: rest =>
    rw [crossCounts_cons_cons, crossLoop_eq_countP]
    rfl

/-- C1: for every resolved stock and date range, the cross-count evaluator
works over the stock's indicator rows of the range in ascending date order,
with every row whose 5-day or 20-day moving average is null excluded; each
remaining consecutive pair contributes a golden cross exactly when MA5 ≤
MA20 on the earlier row and MA5 > MA20 on the later one, and a dead cross
exactly when MA5 ≥ MA20 on the earlier row and MA5 < MA20 on the later one;
fewer than 2 qualifying rows give both counts zero; and a series crossing
MA5 above MA20 exactly twice and below exactly once within the range yields
golden_cross_count = 2 and dead_cross_count = 1. -/
theorem C1_cross_count_evaluator :
    (∀ (tis : List TechnicalIndicator) (sid : Nat) (start_dt end_dt : Int),
      ((crossTechData tis sid start_dt end_dt).Pairwise
          (fun x y => x.date ≤ y.date))
      ∧ (∀ t ∈ crossTechData tis sid start_dt end_dt,
          t.stock_id = sid ∧ start_dt ≤ t.date ∧ t.date ≤ end_dt
            ∧ t.ma5.isSome = true ∧ t.ma20.isSome = true)
      ∧ crossCountQuery tis sid start_dt end_dt =
          (((crossTechData tis sid start_dt end_dt).zip
              (crossTechData tis sid start_dt end_dt).tail).countP
                (fun pc => goldenCond pc.1 pc.2),
           ((crossTechData tis sid start_dt end_dt).zip
              (crossTechData tis sid start_dt end_dt).tail).countP
                (fun pc => deadCond pc.1 pc.2)))
    ∧ (∀ (tis : List TechnicalIndicator) (sid : Nat) (start_dt end_dt : Int),
        (crossTechData tis sid start_dt end_dt).length < 2 →
        crossCountQuery tis sid start_dt end_dt = (0, 0))
    ∧ crossCountQuery exCrossTis 1 1 6 = (2, 1) := by
  refine ⟨?_, ?_, by decide⟩
  · intro tis sid s e
    refine ⟨pairwise_sortBy_asc_int (fun t : TechnicalIndicator => t.date) _, ?_,
      crossCounts_eq_countP _⟩
    intro t ht
    simp only [crossTechData] at ht
    have ht2 := List.mem_filter.mp (mem_sortBy.mp ht)
    have hcond := ht2.2
    simp only [Bool.and_eq_true, decide_eq_true_eq, beq_iff_eq] at hcond
    exact ⟨hcond.1.1.1.1, hcond.1.1.1.2, hcond.1.1.2, hcond.1.2, hcond.2⟩
  · intro tis sid s e h
    unfold crossCountQuery crossCounts
    rw [if_pos h]

/-- Witness for C1: a series with a single qualifying row reports zero
counts. -/
theorem C1_cross_count_evaluator_witness :
    (crossTechData exFewTis 1 1 6).length < 2 ∧
    crossCountQuery exFewTis 1 1 6 = (0, 0) :=
  ⟨by decide, C1_cross_count_evaluator.2.1 exFewTis 1 1 6 (by decide)⟩

/-- The pairwise loop detects at most one cross per consecutive pair, so the
total count is bounded by the number of pairs. -/
theorem crossLoop_sum_le (prev : TechnicalIndicator)
    (rest : List TechnicalIndicator) :
    (crossLoop prev rest).1 + (crossLoop prev rest).2 ≤ rest.length := by
  induction rest generalizing prev with
  | nil => simp [crossLoop]
  | cons curr rest ih =>
    have h := ih curr
    simp only [crossLoop, List.length_cons]
    by_cases hg : goldenCond prev curr = true
    · simp only [hg, if_pos]
      omega
    · by_cases hd : deadCond prev curr = true
      · simp only [hg, hd, Bool.false_eq_true, if_false, if_pos]
        omega
      · simp only [hg, hd, Bool.false_eq_true, if_false]
        omega

/-- C9: on a series of at least 2 qualifying rows, a consecutive pair can
never be counted as both a golden and a dead cross, and the two counts sum
to at most the number of qualifying rows minus one. -/
theorem C9_cross_counts_bounded (rows : List TechnicalIndicator)
    (h : 2 ≤ rows.length) :
    (∀ p c : TechnicalIndicator,
        ¬(goldenCond p c = true ∧ deadCond p c = true))
    ∧ (crossCounts rows).1 + (crossCounts rows).2 ≤ rows.length - 1 := by
  refine ⟨fun p c => golden_dead_exclusive p c, ?_⟩
  match rows with
  | [] => exact absurd h (by decide)
  | [x] =>
    simp only [List.length_cons, List.length_nil] at h
    exact absurd h (by decide)
  | a :: b :: rest =>
    rw [crossCounts_cons_cons]
    have hle := crossLoop_sum_le a (b :: rest)
    simp only [List.length_cons] at hle ⊢
    omega

/-- Witness for C9 on the qualifying rows of the concrete cross-count
example: 2 + 1 is at most 5 - 1. -/
theorem C9_cross_counts_bounded_witness :
    (crossCounts (crossTechData exCrossTis 1 1 6)).1 +
      (crossCounts (crossTechData exCrossTis 1 1 6)).2 ≤
      (crossTechData exCrossTis 1 1 6).length - 1 :=
  (C9_cross_counts_bounded (crossTechData exCrossTis 1 1 6) (by decide)).2

/-- C2: on the active stocks of the requested market, the resolver tries
exact display name, exact trading symbol, exact exchange code, then
substring containment, returning the first hit of the first stage that
matches; in particular, when an exact display-name match exists it is
returned before any later stage is considered. -/
theorem C2_resolver_priority (db : List Stock) (q m : String) :
    ((∃ s ∈ resolverBase db m, s.name = q) →
      find_stock_by_name db q m =
        (resolverBase db m).find? (fun s => s.name == q))
    ∧ ((∀ s ∈ resolverBase db m, s.name ≠ q) →
        (∃ s ∈ resolverBase db m, s.symbol = q) →
        find_stock_by_name db q m =
          (resolverBase db m).find? (fun s => s.symbol == q))
    ∧ ((∀ s ∈ resolverBase db m, s.name ≠ q ∧ s.symbol ≠ q) →
        (∃ s ∈ resolverBase db m, s.krx_code = q) →
        find_stock_by_name db q m =
          (resolverBase db m).find? (fun s => s.krx_code == q))
    ∧ ((∀ s ∈ resolverBase db m, s.name ≠ q ∧ s.symbol ≠ q
          ∧ s.krx_code ≠ q) →
        find_stock_by_name db q m =
          (resolverBase db m).find? (fun s =>
            strHas s.name q || strHas s.symbol q || strHas s.krx_code q)) := by
  refine ⟨?_, ?_, ?_, ?_⟩
  · rintro ⟨s0, hs0, hname⟩
    have hsome : ((resolverBase db m).find? (fun s => s.name == q)).isSome := by
      rw [List.find?_isSome]
      exact ⟨s0, hs0, by simpa using hname⟩
    obtain ⟨sf, hsf⟩ := Option.isSome_iff_exists.mp hsome
    unfold find_stock_by_name
    rw [hsf]
  · rintro hall ⟨s0, hs0, hsym⟩
    have h1 : (resolverBase db m).find? (fun s => s.name == q) = none := by
      rw [List.find?_eq_none]
      intro x hx
      simpa using hall x hx
    have hsome :
        ((resolverBase db m).find? (fun s => s.symbol == q)).isSome := by
      rw [List.find?_isSome]
      exact ⟨s0, hs0, by simpa using hsym⟩
    obtain ⟨sf, hsf⟩ := Option.isSome_iff_exists.mp hsome
    unfold find_stock_by_name
    rw [h1, hsf]
  · rintro hall ⟨s0, hs0, hkrx⟩
    have h1 : (resolverBase db m).find? (fun s => s.name == q) = none := by
      rw [List.find?_eq_none]
      intro x hx
      simpa using (hall x hx).1
    have h2 : (resolverBase db m).find? (fun s => s.symbol == q) = none := by
      rw [List.find?_eq_none]
      intro x hx
      simpa using (hall x hx).2
    have hsome :
        ((resolverBase db m).find? (fun s => s.krx_code == q)).isSome := by
      rw [List.find?_isSome]
      exact ⟨s0, hs0, by simpa using hkrx⟩
    obtain ⟨sf, hsf⟩ := Option.isSome_iff_exists.mp hsome
    unfold find_stock_by_name
    rw [h1, h2, hsf]
  · intro hall
    have h1 : (resolverBase db m).find? (fun s => s.name == q) = none := by
      rw [List.find?_eq_none]
      intro x hx
      simpa using (hall x hx).1
    have h2 : (resolverBase db m).find? (fun s => s.symbol == q) = none := by
      rw [List.find?_eq_none]
      intro x hx
      simpa using (hall x hx).2.1
    have h3 : (resolverBase db m).find? (fun s => s.krx_code == q) = none := by
      rw [List.find?_eq_none]
      intro x hx
      simpa using (hall x hx).2.2
    unfold find_stock_by_name
    rw [h1, h2, h3]

/-- Witness for C2: the exact display-name stage resolves the query BB. -/
theorem C2_resolver_priority_witness :
    find_stock_by_name exStocks "BB" "ALL" =
      (resolverBase exStocks "ALL").find? (fun s => s.name == "BB") :=
  (C2_resolver_priority exStocks "BB" "ALL").1
    ⟨exStock 2 "B.KS" "2222" "BB", by decide, by decide⟩

/-- C6 (code bug): on an input matching no stock, the resolver does produce
the NotFound outcome (`none`, then an `HTTPException(404)` in the route
body), but the blanket `except Exception` handler of `signal_query` rewraps
it, so the surfaced failure has status 500, not the 404-equivalent the claim
states. -/
theorem C6_resolver_notfound_surfaces_500 :
    find_stock_by_name exStocks "zzz" "ALL" = none
    ∧ excHTTPStatus (signal_query_body exStocks [] [] none
        "golden_cross_count" none none none none (some "zzz")
        (some "2024-06-01") (some "2025-06-30") 20 15) = some 404
    ∧ errStatus (signal_query exStocks [] [] none "golden_cross_count"
        none none none none (some "zzz") (some "2024-06-01")
        (some "2025-06-30") 20 15) = some 500 := by
  exact ⟨by decide, by decide, by decide⟩

/-- C7 (code bug): a malformed date makes `parse_date` raise a 400, and an
unsupported signal type makes the body raise a 400, but in both cases the
blanket `except Exception` handler of `signal_query` converts the raised
`HTTPException` into a 500 internal error, so the operation does not fail
with a bad-request condition as the claim states. -/
theorem C7_bad_request_surfaces_500 :
    errStatus (parse_date "2025/01/20") = some 400
    ∧ errStatus (signal_query exStocks [] [] (some "2025/01/20")
        "rsi_overbought" none none none none none none none 20 15) = some 500
    ∧ excHTTPStatus (signal_query_body exStocks [] [] (some "2025-01-20")
        "unknown_signal" none none none none none none none 20 15) = some 400
    ∧ errStatus (signal_query exStocks [] [] (some "2025-01-20")
        "unknown_signal" none none none none none none none 20 15) =
        some 500 := by
  exact ⟨by decide, by decide, by decide, by decide⟩

/-- C4: the RSI-overbought evaluator returns only rows whose RSI is at or
above the threshold and orders them descending by RSI; the oversold variant
keeps RSI at or below the threshold, ordered ascending; and rows with RSI
values 72.5, 85.0 and 69.9 on a date yield, with threshold 70, the ordered
overbought result 85.0, 72.5. -/
theorem C4_rsi_evaluator :
    (∀ (tis : List TechnicalIndicator) (stocks : List Stock) (qd : Int)
        (thr : Rat) (lim : Nat),
      (∀ r ∈ rsiOverboughtRows tis stocks qd thr lim,
        thr ≤ r.metric.getD 0)
      ∧ (rsiOverboughtRows tis stocks qd thr lim).Pairwise
          (fun x y => y.metric.getD 0 ≤ x.metric.getD 0)
      ∧ (∀ r ∈ rsiOversoldRows tis stocks qd thr lim,
          r.metric.getD 0 ≤ thr)
      ∧ (rsiOversoldRows tis stocks qd thr lim).Pairwise
          (fun x y => x.metric.getD 0 ≤ y.metric.getD 0))
    ∧ rsiOverboughtRows exRsiTis exStocks 10 70 15 =
        [⟨"BB", "B.KS", some 85.0⟩, ⟨"AA", "A.KS", some 72.5⟩] := by
  refine ⟨?_, by decide⟩
  intro tis stocks qd thr lim
  refine ⟨?_, ?_, ?_, ?_⟩
  · intro r hr
    obtain ⟨ts, hts, rfl⟩ := List.mem_map.mp hr
    have h1 := mem_sortBy.mp (List.mem_of_mem_take hts)
    have h2 := (List.mem_filter.mp h1).2
    simpa using h2
  · have hp := pairwise_sortBy_desc
      (fun ts : TechnicalIndicator × Stock => ts.1.rsi.getD 0)
      ((rsiBase tis stocks qd).filter (fun ts =>
        decide (thr ≤ ts.1.rsi.getD 0)))
    have hp2 := hp.sublist (List.take_sublist lim _)
    exact List.pairwise_map.mpr (hp2.imp (fun h => h))
  · intro r hr
    obtain ⟨ts, hts, rfl⟩ := List.mem_map.mp hr
    have h1 := mem_sortBy.mp (List.mem_of_mem_take hts)
    have h2 := (List.mem_filter.mp h1).2
    simpa using h2
  · have hp := pairwise_sortBy_asc
      (fun ts : TechnicalIndicator × Stock => ts.1.rsi.getD 0)
      ((rsiBase tis stocks qd).filter (fun ts =>
        decide (ts.1.rsi.getD 0 ≤ thr)))
    have hp2 := hp.sublist (List.take_sublist lim _)
    exact List.pairwise_map.mpr (hp2.imp (fun h => h))

/-- Witness for C4: the first row of the concrete overbought result has RSI
at least 70. -/
theorem C4_rsi_evaluator_witness :
    (70 : Rat) ≤ (⟨"BB", "B.KS", some 85.0⟩ : SigRow).metric.getD 0 :=
  (C4_rsi_evaluator.1 exRsiTis exStocks 10 70 15).1
    ⟨"BB", "B.KS", some 85.0⟩ (by decide)

/-- The per-stock breakout body keeps exactly the rows whose selected MA and
close are truthy and whose deviation reaches the threshold. -/
theorem breakoutRowFor_eq_some {maP : Int} {brk : Rat}
    {tps : TechnicalIndicator × DailyPrice × Stock} {r : SigRow} :
    breakoutRowFor maP brk tps = some r ↔
      ratTruthy (selectMA tps.1 maP) = true
      ∧ ratTruthy tps.2.1.close_price = true
      ∧ brk ≤ (tps.2.1.close_price.getD 0 - (selectMA tps.1 maP).getD 0)
          / (selectMA tps.1 maP).getD 0 * 100
      ∧ r = ⟨tps.2.2.name, tps.2.2.symbol,
          some ((tps.2.1.close_price.getD 0 - (selectMA tps.1 maP).getD 0)
            / (selectMA tps.1 maP).getD 0 * 100)⟩ := by
  simp only [breakoutRowFor]
  split_ifs with h1 h2
  · rw [Bool.and_eq_true] at h1
    constructor
    · intro h
      exact ⟨h1.1, h1.2, h2, (Option.some_inj.mp h).symm⟩
    · rintro ⟨_, _, _, hr⟩
      rw [hr]
  · rw [Bool.and_eq_true] at h1
    constructor
    · intro h
      exact h.elim
    · rintro ⟨_, _, hdev, _⟩
      exact absurd hdev h2
  · constructor
    · intro h
      exact h.elim
    · rintro ⟨ha, hb, _, _⟩
      rw [ha, hb] at h1
      exact h1 rfl

/-- C5: the moving-average breakout evaluator computes deviation =
(close − MA) / MA × 100 for the chosen MA period, keeps a stock exactly when
its MA and close are materially present and the deviation reaches the
threshold, and sorts descending by deviation; with period 20 and threshold
10, close 121 over MA20 100 (21 percent) is included while close 105 over
MA20 100 (5 percent) is excluded. -/
theorem C5_ma_breakout :
    (∀ (tis : List TechnicalIndicator) (dps : List DailyPrice)
        (stocks : List Stock) (qd maP : Int) (brk : Rat) (r : SigRow),
      r ∈ maBreakoutRaw tis dps stocks qd maP brk ↔
        ∃ tps ∈ joinTIPriceStock tis dps stocks,
          tps.1.date = qd ∧ tps.2.2.is_active = true
          ∧ ratTruthy (selectMA tps.1 maP) = true
          ∧ ratTruthy tps.2.1.close_price = true
          ∧ brk ≤ (tps.2.1.close_price.getD 0 - (selectMA tps.1 maP).getD 0)
              / (selectMA tps.1 maP).getD 0 * 100
          ∧ r = ⟨tps.2.2.name, tps.2.2.symbol,
              some ((tps.2.1.close_price.getD 0
                - (selectMA tps.1 maP).getD 0)
                / (selectMA tps.1 maP).getD 0 * 100)⟩)
    ∧ (∀ (tis : List TechnicalIndicator) (dps : List DailyPrice)
        (stocks : List Stock) (qd maP : Int) (brk : Rat) (lim : Nat),
        (maBreakoutRows tis dps stocks qd maP brk lim).Pairwise
          (fun x y => y.metric.getD 0 ≤ x.metric.getD 0))
    ∧ maBreakoutRows exMaTis exMaDps exStocks 10 20 10 15 =
        [⟨"AA", "A.KS", some 21⟩] := by
  refine ⟨?_, ?_, by decide⟩
  · intro tis dps stocks qd maP brk r
    unfold maBreakoutRaw
    rw [List.mem_filterMap]
    constructor
    · rintro ⟨tps, htps, hsome⟩
      have hf := List.mem_filter.mp htps
      rw [breakoutRowFor_eq_some] at hsome
      have hc := hf.2
      simp only [Bool.and_eq_true, beq_iff_eq] at hc
      exact ⟨tps, hf.1, hc.1, hc.2, hsome.1, hsome.2.1, hsome.2.2.1,
        hsome.2.2.2⟩
    · rintro ⟨tps, hmem, hdate, hact, h1, h2, h3, hr⟩
      refine ⟨tps, List.mem_filter.mpr ⟨hmem, ?_⟩,
        breakoutRowFor_eq_some.mpr ⟨h1, h2, h3, hr⟩⟩
      simp only [Bool.and_eq_true, beq_iff_eq]
      exact ⟨hdate, hact⟩
  · intro tis dps stocks qd maP brk lim
    have hp := pairwise_sortBy_desc (fun r : SigRow => r.metric.getD 0)
      (maBreakoutRaw tis dps stocks qd maP brk)
    exact hp.sublist (List.take_sublist lim _)

/-- Witness for C5: the 21-percent-deviation stock is in the concrete raw
result. -/
theorem C5_ma_breakout_witness :
    (⟨"AA", "A.KS", some 21⟩ : SigRow) ∈
      maBreakoutRaw exMaTis exMaDps exStocks 10 20 10 :=
  (C5_ma_breakout.1 exMaTis exMaDps exStocks 10 20 10
    ⟨"AA", "A.KS", some 21⟩).mpr
    ⟨(exTi 1 10 none (some 100), exDp 1 10 (some 121) 0,
        exStock 1 "A.KS" "1111" "AA"),
      by decide, by decide, by decide, by decide, by decide, by decide,
      by decide⟩

/-- The mean volume of a window of non-negative volumes is non-negative. -/
theorem avgVolume_nonneg {win : List DailyPrice}
    (h : ∀ p ∈ win, 0 ≤ p.volume) : 0 ≤ avgVolume win := by
  unfold avgVolume
  apply div_nonneg
  · apply List.sum_nonneg
    intro x hx
    obtain ⟨p, hp, rfl⟩ := List.mem_map.mp hx
    exact h p hp
  · exact Nat.cast_nonneg _

/-- The per-stock surge body keeps exactly the stocks with at least 10
window observations, a positive mean volume, and a surge ratio reaching
multiplier × 100. -/
theorem surgeRowFor_eq_some {dps : List DailyPrice} {qd : Int} {mult : Rat}
    {period : Int} {ps : DailyPrice × Stock} {r : SigRow} :
    surgeRowFor dps qd mult period ps = some r ↔
      10 ≤ (surgeWindow dps ps.2.stock_id qd period).length
      ∧ 0 < avgVolume (surgeWindow dps ps.2.stock_id qd period)
      ∧ mult * 100 ≤ ps.1.volume
          / avgVolume (surgeWindow dps ps.2.stock_id qd period) * 100
      ∧ r = ⟨ps.2.name, ps.2.symbol, some (ps.1.volume
          / avgVolume (surgeWindow dps ps.2.stock_id qd period) * 100)⟩ := by
  simp only [surgeRowFor]
  split_ifs with h1 h2 h3
  · constructor
    · intro h
      exact ⟨h1, h2, h3, (Option.some_inj.mp h).symm⟩
    · rintro ⟨_, _, _, hr⟩
      rw [hr]
  · constructor
    · intro h
      exact h.elim
    · rintro ⟨_, _, h3', _⟩
      exact absurd h3' h3
  · constructor
    · intro h
      exact h.elim
    · rintro ⟨_, h2', _, _⟩
      exact absurd h2' h2
  · constructor
    · intro h
      exact h.elim
    · rintro ⟨h1', _⟩
      exact absurd h1' h1

/-- C3: the volume-surge evaluator considers each active stock with a price
row on the snapshot date, computes the mean volume of the rows dated in the
preceding `period` days (default 20 in `signal_query`), requires at least
10 observations (never including a stock with fewer), keeps a stock exactly
when volume / mean × 100 is at least multiplier × 100, and sorts descending
by the surge ratio. Stated for non-negative volumes and a positive
multiplier. -/
theorem C3_volume_surge (dps : List DailyPrice) (stocks : List Stock)
    (qd : Int) (mult : Rat) (period : Int) (lim : Nat)
    (hvol : ∀ p ∈ dps, 0 ≤ p.volume) (hmult : 0 < mult) :
    (∀ r : SigRow,
      r ∈ volumeSurgeRaw dps stocks qd mult period ↔
        ∃ ps ∈ surgeCurrent dps stocks qd,
          10 ≤ (surgeWindow dps ps.2.stock_id qd period).length
          ∧ mult * 100 ≤ ps.1.volume
              / avgVolume (surgeWindow dps ps.2.stock_id qd period) * 100
          ∧ r = ⟨ps.2.name, ps.2.symbol, some (ps.1.volume
              / avgVolume (surgeWindow dps ps.2.stock_id qd period) * 100)⟩)
    ∧ (∀ r ∈ volumeSurgeRows dps stocks qd mult period lim,
        ∃ ps ∈ surgeCurrent dps stocks qd,
          r.name = ps.2.name ∧
          10 ≤ (surgeWindow dps ps.2.stock_id qd period).length)
    ∧ (volumeSurgeRows dps stocks qd mult period lim).Pairwise
        (fun x y => y.metric.getD 0 ≤ x.metric.getD 0) := by
  have hwin : ∀ sid : Nat, ∀ p ∈ surgeWindow dps sid qd period,
      (0:Rat) ≤ p.volume := by
    intro sid p hp
    exact hvol p (List.mem_filter.mp hp).1
  have hmem : ∀ r : SigRow,
      r ∈ volumeSurgeRaw dps stocks qd mult period ↔
        ∃ ps ∈ surgeCurrent dps stocks qd,
          10 ≤ (surgeWindow dps ps.2.stock_id qd period).length
          ∧ mult * 100 ≤ ps.1.volume
              / avgVolume (surgeWindow dps ps.2.stock_id qd period) * 100
          ∧ r = ⟨ps.2.name, ps.2.symbol, some (ps.1.volume
              / avgVolume (surgeWindow dps ps.2.stock_id qd period) * 100)⟩ := by
    intro r
    unfold volumeSurgeRaw
    rw [List.mem_filterMap]
    constructor
    · rintro ⟨ps, hps, hsome⟩
      rw [surgeRowFor_eq_some] at hsome
      exact ⟨ps, hps, hsome.1, hsome.2.2.1, hsome.2.2.2⟩
    · rintro ⟨ps, hps, h10, hratio, hr⟩
      refine ⟨ps, hps, surgeRowFor_eq_some.mpr ⟨h10, ?_, hratio, hr⟩⟩
      have h0 : 0 ≤ avgVolume (surgeWindow dps ps.2.stock_id qd period) :=
        avgVolume_nonneg (hwin ps.2.stock_id)
      rcases lt_or_eq_of_le h0 with h | h
      · exact h
      · exfalso
        rw [← h, div_zero, zero_mul] at hratio
        have hpos : (0:Rat) < mult * 100 :=
          mul_pos hmult (by norm_num)
        linarith
  refine ⟨hmem, ?_, ?_⟩
  · intro r hr
    have hr2 := mem_sortBy.mp (List.mem_of_mem_take hr)
    obtain ⟨ps, hps, h10, _, hrow⟩ := (hmem r).mp hr2
    refine ⟨ps, hps, ?_, h10⟩
    rw [hrow]
  · have hp := pairwise_sortBy_desc (fun r : SigRow => r.metric.getD 0)
      (volumeSurgeRaw dps stocks qd mult period)
    exact hp.sublist (List.take_sublist lim _)

/-- Witness for C3 on the concrete surge fixture: non-negative volumes and a
positive multiplier give a descending-sorted result. -/
theorem C3_volume_surge_witness :
    (volumeSurgeRows exSurgeDps exStocks 20 5 20 15).Pairwise
      (fun x y => y.metric.getD 0 ≤ x.metric.getD 0) :=
  (C3_volume_surge exSurgeDps exStocks 20 5 20 15 (by decide)
    (by decide)).2.2

/-- C8: a snapshot signal query whose filter conditions match no stocks
returns a successful response carrying an empty result list, not a
not-found error — shown for each snapshot branch of `signal_query` — while
a request for a single absent scalar (a specific stock's price on a
specific date) raises the not-found condition in the `simple_query` body. -/
theorem C8_empty_success_absent_scalar_notfound :
    (∀ (stocks : List Stock) (dps : List DailyPrice)
        (tis : List TechnicalIndicator) (thr : Option Rat) (per : Int)
        (lim : Nat),
      rsiOverboughtRows tis stocks (toOrdinal ⟨2025, 1, 20⟩) (pyOr thr 70)
          lim = [] →
      signal_query stocks dps tis (some "2025-01-20") "rsi_overbought" thr
        none none none none none none per lim =
        .ok (.snapshot "2025-01-20" "rsi_overbought" []))
    ∧ (∀ (stocks : List Stock) (dps : List DailyPrice)
        (tis : List TechnicalIndicator) (mult : Option Rat) (per : Int)
        (lim : Nat),
        volumeSurgeRows dps stocks (toOrdinal ⟨2025, 1, 20⟩) (pyOr mult 1)
            per lim = [] →
        signal_query stocks dps tis (some "2025-01-20") "volume_surge" none
          mult none none none none none per lim =
          .ok (.snapshot "2025-01-20" "volume_surge" []))
    ∧ (∀ (stocks : List Stock) (dps : List DailyPrice)
        (tis : List TechnicalIndicator) (maP : Option Int) (brk : Option Rat)
        (per : Int) (lim : Nat),
        maBreakoutRows tis dps stocks (toOrdinal ⟨2025, 1, 20⟩)
            (pyOrInt maP 20) (pyOr brk 3) lim = [] →
        signal_query stocks dps tis (some "2025-01-20") "ma_breakout" none
          none maP brk none none none per lim =
          .ok (.snapshot "2025-01-20" "ma_breakout" []))
    ∧ (∀ (stocks : List Stock) (dps : List DailyPrice)
        (tis : List TechnicalIndicator) (per : Int) (lim : Nat),
        bollingerRows tis stocks (toOrdinal ⟨2025, 1, 20⟩) true lim = [] →
        signal_query stocks dps tis (some "2025-01-20") "bollinger_upper"
          none none none none none none none per lim =
          .ok (.snapshot "2025-01-20" "bollinger_upper" []))
    ∧ (∀ (stocks : List Stock) (dps : List DailyPrice)
        (sq dq pt : String) (day : Day) (st : Stock),
        parse_date dq = .ok day →
        simpleResolve stocks sq = some st →
        dps.find? (fun p =>
          p.stock_id == st.stock_id && p.date == toOrdinal day) = none →
        simple_query_price_body stocks dps sq dq pt =
          .error (.http ⟨404,
            "가격 데이터 없음: " ++ sq ++ " (" ++ dq ++ ")"⟩)) := by
  refine ⟨?_, ?_, ?_, ?_, ?_⟩
  · intro stocks dps tis thr per lim h
    have e : signal_query stocks dps tis (some "2025-01-20")
        "rsi_overbought" thr none none none none none none per lim =
        .ok (.snapshot "2025-01-20" "rsi_overbought"
          (rsiOverboughtRows tis stocks (toOrdinal ⟨2025, 1, 20⟩)
            (pyOr thr 70) lim)) := rfl
    rw [e, h]
  · intro stocks dps tis mult per lim h
    have e : signal_query stocks dps tis (some "2025-01-20")
        "volume_surge" none mult none none none none none per lim =
        .ok (.snapshot "2025-01-20" "volume_surge"
          (volumeSurgeRows dps stocks (toOrdinal ⟨2025, 1, 20⟩)
            (pyOr mult 1) per lim)) := rfl
    rw [e, h]
  · intro stocks dps tis maP brk per lim h
    have e : signal_query stocks dps tis (some "2025-01-20")
        "ma_breakout" none none maP brk none none none per lim =
        .ok (.snapshot "2025-01-20" "ma_breakout"
          (maBreakoutRows tis dps stocks (toOrdinal ⟨2025, 1, 20⟩)
            (pyOrInt maP 20) (pyOr brk 3) lim)) := rfl
    rw [e, h]
  · intro stocks dps tis per lim h
    have e : signal_query stocks dps tis (some "2025-01-20")
        "bollinger_upper" none none none none none none none per lim =
        .ok (.snapshot "2025-01-20" "bollinger_upper"
          (bollingerRows tis stocks (toOrdinal ⟨2025, 1, 20⟩) true
            lim)) := rfl
    rw [e, h]
  · intro stocks dps sq dq pt day st hparse hres hfind
    simp only [simple_query_price_body, hparse, hres, hfind]

/-- Witness for C8: with no indicator rows at all, the RSI-overbought query
succeeds with an empty result list. -/
theorem C8_empty_success_absent_scalar_notfound_witness :
    signal_query exStocks [] [] (some "2025-01-20") "rsi_overbought" none
      none none none none none none 20 15 =
      .ok (.snapshot "2025-01-20" "rsi_overbought" []) :=
  C8_empty_success_absent_scalar_notfound.1 exStocks [] [] none 20 15
    (by decide)

/-- C10: in the individual stock-price branch, a price_type token outside
open, high, low, close and change_rate is not rejected as a bad request:
the branch succeeds and returns the close price of the requested date. -/
theorem C10_price_type_fallback (stocks : List Stock)
    (dps : List DailyPrice) (sq dq pt : String) (day : Day) (st : Stock)
    (p : DailyPrice)
    (hpt : pt ∉ (["open", "high", "low", "close", "change_rate"] :
      List String))
    (hparse : parse_date dq = .ok day)
    (hres : simpleResolve stocks sq = some st)
    (hfind : dps.find? (fun q =>
      q.stock_id == st.stock_id && q.date == toOrdinal day) = some p) :
    simple_query_price stocks dps sq dq pt =
      .ok ⟨sq, dq, pt, p.close_price⟩ := by
  simp only [List.mem_cons, List.not_mem_nil, or_false, not_or] at hpt
  obtain ⟨n1, n2, n3, n4, n5⟩ := hpt
  have h1 : (pt == "open") = false := beq_eq_false_iff_ne.mpr n1
  have h2 : (pt == "high") = false := beq_eq_false_iff_ne.mpr n2
  have h3 : (pt == "low") = false := beq_eq_false_iff_ne.mpr n3
  have h4 : (pt == "close") = false := beq_eq_false_iff_ne.mpr n4
  have h5 : (pt == "change_rate") = false := beq_eq_false_iff_ne.mpr n5
  unfold simple_query_price
  simp only [simple_query_price_body, hparse, hres, hfind, h1, h2, h3, h4,
    h5, Bool.false_eq_true, if_false]
  rfl

/-- Witness for C10: the unknown token banana yields the close price. -/
theorem C10_price_type_fallback_witness :
    simple_query_price exStocks [exDp 1 739271 (some 123) 0] "AA"
      "2025-01-20" "banana" =
      .ok ⟨"AA", "2025-01-20", "banana", some 123⟩ :=
  C10_price_type_fallback exStocks [exDp 1 739271 (some 123) 0] "AA"
    "2025-01-20" "banana" ⟨2025, 1, 20⟩ (exStock 1 "A.KS" "1111" "AA")
    (exDp 1 739271 (some 123) 0) (by decide) (by decide) (by decide)
    (by decide)
